import Mathlib

/-!
Verification of the selection-resolution and task-creation pipeline of the
obsidian-asana plugin. The definitions below are shallow embeddings of the
TypeScript source: the remote client (src/api/asanaApi.ts), the fuzzy
selection modal (src/ui/FuzzySelectModal.ts), and the orchestrator
(promptForTaskDetails / createAsanaTask in the plugin main file). Effectful
host collaborators (HTTP, pickers, editor) are modeled as explicit oracles
and traces of events.
-/

/-- A named, identified entity from the Asana API (workspace, project or
section as consumed by the pickers): the `{ name, gid }` records built in
`promptForTaskDetails`. -/
structure NamedGid where
  name : String
  gid : String
deriving DecidableEq

/-- A project option offered in the project picker: `{ name, gid, isPinned,
isMyTasks }` as built in `promptForTaskDetails`. -/
structure ProjectOption where
  name : String
  gid : String
  isPinned : Bool
  isMyTasks : Bool
deriving DecidableEq

/-- The resolved selection returned by `promptForTaskDetails`. -/
structure TaskDetails where
  workspaceGid : String
  projectGid : String
  sectionGid : String
  projectName : String
  sectionName : String
deriving DecidableEq

/-- Plugin settings (settings/settings.ts, `AsanaPluginSettings`). -/
structure Settings where
  asanaToken : String
  markTaskAsCompleted : Bool
  pinnedProjects : List String
  enableMarkdownLink : Bool
  showArchivedProjects : Bool
  pinMyTasks : Bool
deriving DecidableEq

/-- A JSON value, as much of it as the request bodies need: the values in
the task-creation body are strings and one array of strings. -/
inductive Json where
  | str : String → Json
  | arr : List String → Json
deriving DecidableEq

/-- The object literal passed to `JSON.stringify` when `createTaskInAsana`
builds the task-creation body (asanaApi.ts lines 126-133). A field whose
value is `none` models a JavaScript property whose value is `undefined`
(the `assignee: projectGid ? undefined : 'me'` entry); the conditional
spread `...(projectGid ? { projects: [projectGid] } : {})` contributes the
`projects` field only when `projectGid` is truthy (a non-empty string). -/
def createTaskObjectLiteral (taskName workspaceGid projectGid : String) :
    List (String × Option Json) :=
  [("name", some (Json.str taskName)),
   ("workspace", some (Json.str workspaceGid))]
  ++ (if projectGid = "" then [] else
       [("projects", some (Json.arr [projectGid]))])
  ++ [("assignee", if projectGid = "" then some (Json.str "me") else none)]

/-- Serialization: `JSON.stringify` drops object properties whose value is `undefined`:
the serialized body keeps exactly the fields with a defined value. -/
def serializeFields (fields : List (String × Option Json)) :
    List (String × Json) :=
  fields.filterMap (fun p => p.2.map (fun v => (p.1, v)))

/-- The field list of the serialized `data` object of the task-creation
request issued by `createTaskInAsana`. -/
def createTaskRequestData (taskName workspaceGid projectGid : String) :
    List (String × Json) :=
  serializeFields (createTaskObjectLiteral taskName workspaceGid projectGid)

/-- Field lookup in a serialized JSON object (first match, as JSON object
keys here are distinct). -/
def lookupField (fields : List (String × Json)) (key : String) :
    Option Json :=
  (fields.find? (fun p => p.1 == key)).map (fun p => p.2)

/-- C1: For every call of createTaskInAsana: if projectGid is empty, the
serialized task-creation request body omits the projects field and sets
assignee to "me" (the current user); if projectGid is non-empty, the body
includes projects: [projectGid] and omits assignee from the serialized
JSON. -/
theorem createTaskInAsana_body_projects_assignee
    (taskName workspaceGid projectGid : String) :
    (projectGid = "" →
      lookupField (createTaskRequestData taskName workspaceGid projectGid)
        "projects" = none ∧
      lookupField (createTaskRequestData taskName workspaceGid projectGid)
        "assignee" = some (Json.str "me")) ∧
    (projectGid ≠ "" →
      lookupField (createTaskRequestData taskName workspaceGid projectGid)
        "projects" = some (Json.arr [projectGid]) ∧
      lookupField (createTaskRequestData taskName workspaceGid projectGid)
        "assignee" = none) := by
  constructor
  · intro h
    subst h
    simp [createTaskRequestData, createTaskObjectLiteral, serializeFields,
      lookupField, List.find?]
  · intro h
    simp [createTaskRequestData, createTaskObjectLiteral, serializeFields,
      lookupField, List.find?, h]

/-- Witness for C1 at concrete inputs: both the empty and the non-empty
projectGid branches, evaluated on concrete strings. -/
theorem createTaskInAsana_body_projects_assignee_witness :
    (lookupField (createTaskRequestData "buy milk" "1" "") "projects" =
        none ∧
      lookupField (createTaskRequestData "buy milk" "1" "") "assignee" =
        some (Json.str "me")) ∧
    (lookupField (createTaskRequestData "buy milk" "1" "2") "projects" =
        some (Json.arr ["2"]) ∧
      lookupField (createTaskRequestData "buy milk" "1" "2") "assignee" =
        none) :=
  ⟨(createTaskInAsana_body_projects_assignee "buy milk" "1" "").1 rfl,
   (createTaskInAsana_body_projects_assignee "buy milk" "1" "2").2
     (by decide)⟩

/-- An interaction event dispatched to a `FuzzySelectModal` during one
open/close cycle: the host calls `onChooseItem` when the user commits a
choice, and closes the modal (Escape, click outside, or after a choice)
without calling any repository handler that resolves. -/
inductive ModalEvent where
  | chooseItem (item : NamedGid)
  | close
deriving DecidableEq

/-- The mutable fields of `FuzzySelectModal` (src/ui/FuzzySelectModal.ts):
`selectedItem` starts `null` and `resolved` starts `false`. -/
structure ModalState where
  selectedItem : Option NamedGid
  resolved : Bool
deriving DecidableEq

/-- Field initializers of `FuzzySelectModal`. -/
def initialModalState : ModalState := ⟨none, false⟩

/-- Handler `FuzzySelectModal.onChooseItem`: if not yet resolved, record the item,
set the one-shot `resolved` flag and call `resolve(item)`; otherwise ignore
the event. The second component lists the arguments of the `resolve` calls
this event performed. -/
def onChooseItem (st : ModalState) (item : NamedGid) :
    ModalState × List NamedGid :=
  if st.resolved = false then (⟨some item, true⟩, [item])
  else (st, [])

/-- One event step of the modal. `FuzzySelectModal` overrides no close
handler that resolves, so a close event runs no repository code that calls
`resolve`. -/
def modalStep (st : ModalState) : ModalEvent → ModalState × List NamedGid
  | ModalEvent.chooseItem item => onChooseItem st item
  | ModalEvent.close => (st, [])

/-- Run a sequence of interaction events from a given state, collecting
every argument ever passed to `resolve`. -/
def runModalFrom (st : ModalState) :
    List ModalEvent → ModalState × List NamedGid
  | [] => (st, [])
  | e :: es =>
    let r := modalStep st e
    let rest := runModalFrom r.1 es
    (rest.1, r.2 ++ rest.2)

/-- Run one open/close cycle of a `FuzzySelectModal` from its freshly
constructed state. -/
def runFuzzyModal (events : List ModalEvent) :
    ModalState × List NamedGid :=
  runModalFrom initialModalState events

/-- The item committed by an event, if it is a choice event. -/
def chosenItem : ModalEvent → Option NamedGid
  | ModalEvent.chooseItem item => some item
  | ModalEvent.close => none

/-- Once the one-shot flag is set, no later event resolves. -/
theorem runModalFrom_resolved_no_resolutions (events : List ModalEvent)
    (st : ModalState) (h : st.resolved = true) :
    (runModalFrom st events).2 = [] := by
  induction events generalizing st with
  | nil => rfl
  | cons e es ih =>
    cases e with
    | chooseItem item =>
      simp [runModalFrom, modalStep, onChooseItem, h, ih st h]
    | close =>
      simp [runModalFrom, modalStep, ih st h]

/-- From an unresolved state, the resolve calls are exactly the first
committed choice. -/
theorem runModalFrom_unresolved (events : List ModalEvent)
    (st : ModalState) (h : st.resolved = false) :
    (runModalFrom st events).2 = (events.filterMap chosenItem).take 1 := by
  induction events generalizing st with
  | nil => rfl
  | cons e es ih =>
    cases e with
    | chooseItem item =>
      simp [runModalFrom, modalStep, onChooseItem, h, chosenItem,
        runModalFrom_resolved_no_resolutions es ⟨some item, true⟩ rfl]
    | close =>
      simp [runModalFrom, modalStep, chosenItem, ih st h]

/-- C5: For every picker open/close cycle and every sequence of choice
events dispatched during it, the resolution callback is invoked at most
once: the resolve calls of a whole cycle are exactly the first committed
choice (so their number never exceeds one), and every choice event after
the first is ignored. -/
theorem fuzzyModal_resolves_at_most_once (events : List ModalEvent) :
    (runFuzzyModal events).2 = (events.filterMap chosenItem).take 1 ∧
    (runFuzzyModal events).2.length ≤ 1 := by
  have h := runModalFrom_unresolved events initialModalState rfl
  refine ⟨h, ?_⟩
  rw [show (runFuzzyModal events).2 = (runModalFrom initialModalState events).2 from rfl, h]
  calc ((events.filterMap chosenItem).take 1).length ≤ 1 :=
    List.length_take_le 1 (events.filterMap chosenItem)

/-- C4 evidence: dispatching only a close event (the user closes the picker
without choosing) invokes `resolve` zero times — the promise returned by
`promptForSelection` is never settled, with `null` or anything else. -/
theorem fuzzyModal_close_without_choice_never_resolves :
    (runFuzzyModal [ModalEvent.close]).2 = [] ∧
    (runFuzzyModal [ModalEvent.close]).1 = initialModalState := by
  decide

/-- An observable effect of the orchestrator: a remote HTTP call being
issued (operation name and its identifying argument), a picker being
opened, or a user-visible notice. -/
inductive Event where
  | remoteCall (op : String) (arg : String)
  | pickerOpen (title : String)
  | notice (msg : String)
deriving DecidableEq

/-- The task data returned by the final re-fetch in `createTaskInAsana`;
the orchestrator consumes `permalink_url`. -/
structure TaskData where
  gid : String
  permalink_url : String
deriving DecidableEq

/-- The effectful collaborators of one orchestrator invocation, as oracles:
each remote operation yields either parsed data or the error the call
throws with, and each picker yields the user's choice or `none` for
cancellation. -/
structure Env where
  fetchWorkspaces : Except String (List NamedGid)
  fetchUser : Except String String
  fetchProjects : String → Except String (List NamedGid)
  fetchUserTaskListGid : String → Except String String
  fetchSections : String → Except String (List NamedGid)
  pickWorkspace : List NamedGid → Option NamedGid
  pickProject : List ProjectOption → Option ProjectOption
  pickSection : List NamedGid → Option NamedGid
  createTask : String → String → String → String → Except String TaskData

/-- Membership of a gid or name in the pinned set (`pinnedProjectIds.has(p.gid)
|| pinnedProjectIds.has(p.name)` in `promptForTaskDetails`). -/
def inPinnedSet (pinned : List String) (gid name : String) : Bool :=
  pinned.contains gid || pinned.contains name

/-- The project-picker option list built by `promptForTaskDetails`: the
synthetic My Tasks entry, the projects whose gid or name is in the pinned
set, and the remaining projects — My Tasks first when `pinMyTasks` is set,
otherwise between the pinned and the other projects. -/
def buildProjectOptions (s : Settings) (userGid : String)
    (projects : List NamedGid) : List ProjectOption :=
  let myTasksProject : ProjectOption := ⟨"My Tasks", userGid, s.pinMyTasks, true⟩
  let pinnedProjects := (projects.filter (fun p =>
      inPinnedSet s.pinnedProjects p.gid p.name)).map
    (fun p => (⟨p.name, p.gid, true, false⟩ : ProjectOption))
  let otherProjects := (projects.filter (fun p =>
      !inPinnedSet s.pinnedProjects p.gid p.name)).map
    (fun p => (⟨p.name, p.gid, false, false⟩ : ProjectOption))
  if s.pinMyTasks then myTasksProject :: (pinnedProjects ++ otherProjects)
  else pinnedProjects ++ (myTasksProject :: otherProjects)

/-- The section-count special case of `promptForTaskDetails` (the
`sections.length` branch): more than one section opens the picker (whose
cancellation, `none`, aborts), exactly one is auto-selected, and zero
sections skip with a notice. The first component is `none` for an aborted
flow, `some none` for a skipped section and `some (some sec)` for a chosen
or auto-selected section. -/
def resolveSectionStage (pick : List NamedGid → Option NamedGid)
    (sections : List NamedGid) : Option (Option NamedGid) × List Event :=
  if sections.length > 1 then
    match pick (sections.map (fun sec => (⟨sec.name, sec.gid⟩ : NamedGid))) with
    | none => (none, [Event.pickerOpen "Select section",
        Event.notice "Section selection was canceled."])
    | some sel => (some (some sel), [Event.pickerOpen "Select section"])
  else if sections.length = 1 then
    match sections.head? with
    | some sec => (some (some ⟨sec.name, sec.gid⟩), [])
    | none => (some none, [])
  else
    (some none, [Event.notice "No sections found. Skipping section selection."])

/-- The section fetch of `promptForTaskDetails`: for the My Tasks project
the user task-list gid is fetched first and sections are fetched against
it; for a regular project sections are fetched against the project gid. -/
def fetchSectionsStage (env : Env) (workspaceGid : String)
    (project : ProjectOption) : Except String (List NamedGid) × List Event :=
  if project.isMyTasks then
    match env.fetchUserTaskListGid workspaceGid with
    | Except.error e =>
      (Except.error e, [Event.remoteCall "fetchUserTaskListGid" workspaceGid])
    | Except.ok taskListGid =>
      (env.fetchSections taskListGid,
       [Event.remoteCall "fetchUserTaskListGid" workspaceGid,
        Event.remoteCall "fetchAsanaSections" taskListGid])
  else
    (env.fetchSections project.gid,
     [Event.remoteCall "fetchAsanaSections" project.gid])

/-- The return object of `promptForTaskDetails`: an empty `projectGid` for
the My Tasks project, and empty section fields when no section was
selected. -/
def mkTaskDetails (workspace : NamedGid) (project : ProjectOption)
    (selectedSection : Option NamedGid) : TaskDetails :=
  ⟨workspace.gid,
   if project.isMyTasks then "" else project.gid,
   match selectedSection with
     | some sec => sec.gid
     | none => "",
   project.name,
   match selectedSection with
     | some sec => sec.name
     | none => ""⟩

/-- Orchestrator `promptForTaskDetails`: the token guard, the parallel workspace/user
fetch, the workspace picker, the project fetch and picker, the section
fetch and resolution, and the assembled `TaskDetails`; any fetch error is
caught and surfaced as an `Error fetching Asana data` notice with a `none`
result, and any picker cancellation aborts with its own notice. -/
def promptForTaskDetails (s : Settings) (env : Env) :
    Option TaskDetails × List Event :=
  if s.asanaToken = "" then
    (none, [Event.notice "Asana Personal Access Token not set in plugin settings."])
  else
    let t0 : List Event := [Event.remoteCall "fetchAsanaWorkspaces" "",
      Event.remoteCall "fetchAsanaUser" ""]
    match env.fetchWorkspaces, env.fetchUser with
    | Except.error e, _ =>
      (none, t0 ++ [Event.notice ("Error fetching Asana data: " ++ e)])
    | Except.ok _, Except.error e =>
      (none, t0 ++ [Event.notice ("Error fetching Asana data: " ++ e)])
    | Except.ok workspaces, Except.ok userGid =>
      let t1 := t0 ++ [Event.pickerOpen "Select workspace"]
      match env.pickWorkspace (workspaces.map (fun ws => ⟨ws.name, ws.gid⟩)) with
      | none => (none, t1 ++ [Event.notice "Workspace selection was canceled."])
      | some workspace =>
        let t2 := t1 ++ [Event.remoteCall "fetchAsanaProjects" workspace.gid]
        match env.fetchProjects workspace.gid with
        | Except.error e =>
          (none, t2 ++ [Event.notice ("Error fetching Asana data: " ++ e)])
        | Except.ok projects =>
          let t3 := t2 ++ [Event.pickerOpen "Select project"]
          match env.pickProject (buildProjectOptions s userGid projects) with
          | none => (none, t3 ++ [Event.notice "Project selection was canceled."])
          | some project =>
            let fs := fetchSectionsStage env workspace.gid project
            let t4 := t3 ++ fs.2
            match fs.1 with
            | Except.error e =>
              (none, t4 ++ [Event.notice ("Error fetching Asana data: " ++ e)])
            | Except.ok sections =>
              let rs := resolveSectionStage env.pickSection sections
              let t5 := t4 ++ rs.2
              match rs.1 with
              | none => (none, t5)
              | some selectedSection =>
                (some (mkTaskDetails workspace project selectedSection), t5)

/-- The host editor surface consumed by the flow: the document lines, the
cursor line, and the current selection (empty when nothing is selected). -/
structure EditorState where
  lines : List String
  cursorLine : Nat
  selection : String
deriving DecidableEq

/-- Replace the first occurrence of `pat` in `s` by `rep` (JavaScript
`String.prototype.replace` with a string pattern replaces only the first
occurrence). -/
def replaceFirst (s pat rep : String) : String :=
  match s.splitOn pat with
  | [] => s
  | [_] => s
  | a :: rest => a ++ rep ++ String.intercalate pat rest

/-- Whether the pattern occurs at the head of the text. -/
def leadsWith : List Char → List Char → Bool
  | [], _ => true
  | _ :: _, [] => false
  | c :: cs, d :: ds => c == d && leadsWith cs ds

/-- Whether the pattern occurs anywhere in the text (JavaScript
`String.prototype.includes`). -/
def hasSub (pat : List Char) : List Char → Bool
  | [] => pat.isEmpty
  | c :: cs => leadsWith pat (c :: cs) || hasSub pat cs

/-- Case-insensitive-ready substring test on strings. -/
def strIncludes (s pat : String) : Bool := hasSub pat.data s.data

/-- The leading-marker strip applied to the task text in `createAsanaTask`
(the anchored regex: leading whitespace, an optional `-` or `*` list
marker with trailing whitespace, an optional `[ ]`, `[x]` or `[X]`
checkbox with trailing whitespace), followed by `trim`. -/
def dropListMarker (cs : List Char) : List Char :=
  match cs with
  | c :: rest =>
    if c == '-' || c == '*' then rest.dropWhile Char.isWhitespace else cs
  | [] => []

/-- The optional-checkbox part of the same regex. -/
def dropCheckbox (cs : List Char) : List Char :=
  match cs with
  | '[' :: c :: ']' :: rest =>
    if c == ' ' || c == 'x' || c == 'X' then rest.dropWhile Char.isWhitespace
    else cs
  | _ => cs

/-- The strip `selectedText.replace(regex, conversion).trim()` in `createAsanaTask`. -/
def stripListMarkers (s : String) : String :=
  (String.mk (dropCheckbox (dropListMarker
    (s.data.dropWhile Char.isWhitespace)))).trim

/-- Link writer `updateEditorWithTaskLink`: no-op when markdown links are disabled;
otherwise the link text is appended after the selection (the host replaces
the selected range in the cursor line) or after the cursor line. -/
def updateEditorWithTaskLink (s : Settings) (ed : EditorState)
    (taskUrl projectName sectionName : String) : EditorState :=
  if s.enableMarkdownLink = false then ed
  else
    let linkText :=
      "[asana#" ++ projectName ++ "/" ++ sectionName ++ "](" ++ taskUrl ++ ")"
    if ed.selection = "" then
      let lineText := ed.lines.getD ed.cursorLine ""
      ⟨ed.lines.set ed.cursorLine (lineText ++ " " ++ linkText),
       ed.cursorLine, ed.selection⟩
    else
      ⟨ed.lines.set ed.cursorLine
         (replaceFirst (ed.lines.getD ed.cursorLine "") ed.selection
           (ed.selection ++ " " ++ linkText)),
       ed.cursorLine, ed.selection⟩

/-- Completion marker `markTaskAsCompleted`: rewrite the first unchecked checkbox of the
cursor line to a checked one. -/
def markTaskAsCompletedE (ed : EditorState) : EditorState :=
  let lineText := ed.lines.getD ed.cursorLine ""
  ⟨ed.lines.set ed.cursorLine (replaceFirst lineText "- [ ]" "- [x]"),
   ed.cursorLine, ed.selection⟩

/-- Entry point `createAsanaTask`: strip the selected text (or current line), resolve
the task details, create the task remotely, and on success write the link
back and optionally mark the line complete; on failure surface a notice
and leave the editor untouched. -/
def createAsanaTask (s : Settings) (env : Env) (ed : EditorState) :
    EditorState × List Event :=
  let selectedText := stripListMarkers
    (if ed.selection = "" then ed.lines.getD ed.cursorLine "" else ed.selection)
  let pr := promptForTaskDetails s env
  match pr.1 with
  | none => (ed, pr.2)
  | some td =>
    let t := pr.2 ++ [Event.remoteCall "createTaskInAsana" td.workspaceGid]
    match env.createTask selectedText td.workspaceGid td.projectGid
        td.sectionGid with
    | Except.error msg =>
      (ed, t ++ [Event.notice ("Error creating Asana task: " ++ msg)])
    | Except.ok task =>
      let ed1 := updateEditorWithTaskLink s ed task.permalink_url
        td.projectName td.sectionName
      let ed2 := if s.markTaskAsCompleted then markTaskAsCompletedE ed1 else ed1
      (ed2, t)

/-- C2: For every fetched section list in the section-resolution stage: an
empty list proceeds with an empty sectionGid (the skipped section yields
empty section fields in the task details) and no section picker is opened;
a singleton list uses that section gid and name without opening a picker;
a list of two or more elements opens a picker round whose choice (or
cancellation) determines the outcome. -/
theorem sectionResolve_cases (pick : List NamedGid → Option NamedGid)
    (sections : List NamedGid) :
    (sections = [] →
      resolveSectionStage pick sections =
        (some none,
         [Event.notice "No sections found. Skipping section selection."]) ∧
      ∀ w p, (mkTaskDetails w p none).sectionGid = "" ∧
        (mkTaskDetails w p none).sectionName = "") ∧
    (∀ sec, sections = [sec] →
      resolveSectionStage pick sections = (some (some sec), []) ∧
      ∀ w p, (mkTaskDetails w p (some sec)).sectionGid = sec.gid ∧
        (mkTaskDetails w p (some sec)).sectionName = sec.name) ∧
    (2 ≤ sections.length →
      Event.pickerOpen "Select section" ∈ (resolveSectionStage pick sections).2 ∧
      (pick (sections.map (fun sec => (⟨sec.name, sec.gid⟩ : NamedGid))) = none →
        (resolveSectionStage pick sections).1 = none) ∧
      (∀ sel,
        pick (sections.map (fun sec => (⟨sec.name, sec.gid⟩ : NamedGid))) =
          some sel →
        (resolveSectionStage pick sections).1 = some (some sel))) := by
  refine ⟨?_, ?_, ?_⟩
  · intro h
    subst h
    exact ⟨rfl, fun w p => ⟨rfl, rfl⟩⟩
  · intro sec h
    subst h
    exact ⟨rfl, fun w p => ⟨rfl, rfl⟩⟩
  · intro h
    have hgt : sections.length > 1 := h
    unfold resolveSectionStage
    rw [if_pos hgt]
    cases hp : pick (sections.map (fun sec => (⟨sec.name, sec.gid⟩ : NamedGid))) with
    | none => simp [hp]
    | some sel => simp [hp]

/-- Witness for C2 at concrete inputs: all three section-count cases with
a concrete picker. -/
theorem sectionResolve_cases_witness :
    (resolveSectionStage (fun l => l.head?) [] =
      (some none,
       [Event.notice "No sections found. Skipping section selection."])) ∧
    (resolveSectionStage (fun l => l.head?) [⟨"S", "3"⟩] =
      (some (some ⟨"S", "3"⟩), [])) ∧
    (Event.pickerOpen "Select section" ∈
      (resolveSectionStage (fun l => l.head?)
        [⟨"A", "1"⟩, ⟨"B", "2"⟩]).2 ∧
     (resolveSectionStage (fun l => l.head?) [⟨"A", "1"⟩, ⟨"B", "2"⟩]).1 =
       some (some ⟨"A", "1"⟩)) :=
  ⟨((sectionResolve_cases (fun l => l.head?) []).1 rfl).1,
   ((sectionResolve_cases (fun l => l.head?) [⟨"S", "3"⟩]).2.1 ⟨"S", "3"⟩ rfl).1,
   ((sectionResolve_cases (fun l => l.head?)
      [⟨"A", "1"⟩, ⟨"B", "2"⟩]).2.2 (by decide)).1,
   ((sectionResolve_cases (fun l => l.head?)
      [⟨"A", "1"⟩, ⟨"B", "2"⟩]).2.2 (by decide)).2.2 ⟨"A", "1"⟩ rfl⟩

/-- C9: If no token is configured (asanaToken is the empty string),
invoking the task-creation flow aborts immediately with a user-visible
notice and performs zero remote calls, leaving the editor untouched. -/
theorem emptyToken_aborts_without_remote_calls (s : Settings) (env : Env)
    (ed : EditorState) (h : s.asanaToken = "") :
    createAsanaTask s env ed =
      (ed, [Event.notice
        "Asana Personal Access Token not set in plugin settings."]) ∧
    ∀ op arg, Event.remoteCall op arg ∉ (createAsanaTask s env ed).2 := by
  have hp : promptForTaskDetails s env =
      (none, [Event.notice
        "Asana Personal Access Token not set in plugin settings."]) := by
    simp [promptForTaskDetails, h]
  constructor
  · simp [createAsanaTask, hp]
  · intro op arg
    simp [createAsanaTask, hp]

/-- Witness for C9: a concrete settings object with an empty token and a
concrete environment. -/
theorem emptyToken_aborts_without_remote_calls_witness :
    createAsanaTask ⟨"", false, [], true, false, true⟩
      ⟨Except.ok [], Except.ok "u", fun _ => Except.ok [],
       fun _ => Except.ok "tl", fun _ => Except.ok [],
       fun _ => none, fun _ => none, fun _ => none,
       fun _ _ _ _ => Except.error "never"⟩
      ⟨["- [ ] buy milk"], 0, ""⟩ =
      (⟨["- [ ] buy milk"], 0, ""⟩,
       [Event.notice
         "Asana Personal Access Token not set in plugin settings."]) ∧
    Event.remoteCall "fetchAsanaWorkspaces" "" ∉
      (createAsanaTask ⟨"", false, [], true, false, true⟩
        ⟨Except.ok [], Except.ok "u", fun _ => Except.ok [],
         fun _ => Except.ok "tl", fun _ => Except.ok [],
         fun _ => none, fun _ => none, fun _ => none,
         fun _ _ _ _ => Except.error "never"⟩
        ⟨["- [ ] buy milk"], 0, ""⟩).2 :=
  ⟨(emptyToken_aborts_without_remote_calls _ _ _ rfl).1,
   (emptyToken_aborts_without_remote_calls _ _ _ rfl).2
     "fetchAsanaWorkspaces" ""⟩

/-- C8: If the remote task-creation call fails, the orchestrator surfaces
the error message in a notice and performs no editor mutation: the editor
state is identical before and after the failed invocation. -/
theorem createTask_failure_leaves_editor (s : Settings) (env : Env)
    (ed : EditorState) (td : TaskDetails) (msg : String)
    (hp : (promptForTaskDetails s env).1 = some td)
    (hc : env.createTask
        (stripListMarkers
          (if ed.selection = "" then ed.lines.getD ed.cursorLine ""
           else ed.selection))
        td.workspaceGid td.projectGid td.sectionGid = Except.error msg) :
    (createAsanaTask s env ed).1 = ed ∧
    Event.notice ("Error creating Asana task: " ++ msg) ∈
      (createAsanaTask s env ed).2 := by
  rcases hq : promptForTaskDetails s env with ⟨res, evs⟩
  rw [hq] at hp
  simp only at hp
  subst hp
  simp only [createAsanaTask, hq, hc]
  simp

/-- A concrete environment in which every fetch succeeds, every picker
chooses, and the remote task creation fails. -/
def envCreateFail : Env :=
  ⟨Except.ok [⟨"W", "1"⟩], Except.ok "u1",
   fun _ => Except.ok [⟨"P", "2"⟩],
   fun _ => Except.ok "tl1",
   fun _ => Except.ok [⟨"S", "3"⟩],
   fun _ => some ⟨"W", "1"⟩,
   fun _ => some ⟨"P", "2", false, false⟩,
   fun _ => some ⟨"S", "3"⟩,
   fun _ _ _ _ => Except.error "boom"⟩

/-- Witness for C8: a concrete run in which the remote creation fails;
the editor is returned unchanged and the error notice is surfaced. -/
theorem createTask_failure_leaves_editor_witness :
    (createAsanaTask ⟨"tok", false, [], true, false, true⟩ envCreateFail
      ⟨["- [ ] buy milk"], 0, ""⟩).1 = ⟨["- [ ] buy milk"], 0, ""⟩ ∧
    Event.notice ("Error creating Asana task: " ++ "boom") ∈
      (createAsanaTask ⟨"tok", false, [], true, false, true⟩ envCreateFail
        ⟨["- [ ] buy milk"], 0, ""⟩).2 :=
  createTask_failure_leaves_editor ⟨"tok", false, [], true, false, true⟩
    envCreateFail ⟨["- [ ] buy milk"], 0, ""⟩ ⟨"1", "2", "3", "P", "S"⟩
    "boom" (by decide) rfl

/-- C3: Selecting the virtual My Tasks project option causes section
resolution to fetch sections using the user task-list gid obtained from
fetchUserTaskListGid rather than a project gid, and causes the returned
TaskDetails to carry an empty projectGid, so that the task-creation body
omits the project association and assigns the task to the current user. -/
theorem myTasks_selection_uses_taskList_and_empty_project
    (s : Settings) (env : Env) (ws : List NamedGid) (userGid : String)
    (workspace : NamedGid) (projects : List NamedGid)
    (project : ProjectOption) (taskListGid : String)
    (h1 : s.asanaToken ≠ "")
    (h2 : env.fetchWorkspaces = Except.ok ws)
    (h3 : env.fetchUser = Except.ok userGid)
    (h4 : env.pickWorkspace (ws.map (fun w => ⟨w.name, w.gid⟩)) =
      some workspace)
    (h5 : env.fetchProjects workspace.gid = Except.ok projects)
    (h6 : env.pickProject (buildProjectOptions s userGid projects) =
      some project)
    (h7 : project.isMyTasks = true)
    (h8 : env.fetchUserTaskListGid workspace.gid = Except.ok taskListGid) :
    Event.remoteCall "fetchUserTaskListGid" workspace.gid ∈
      (promptForTaskDetails s env).2 ∧
    Event.remoteCall "fetchAsanaSections" taskListGid ∈
      (promptForTaskDetails s env).2 ∧
    ∀ td, (promptForTaskDetails s env).1 = some td →
      td.projectGid = "" ∧
      ∀ taskName wsGid,
        lookupField (createTaskRequestData taskName wsGid td.projectGid)
          "projects" = none ∧
        lookupField (createTaskRequestData taskName wsGid td.projectGid)
          "assignee" = some (Json.str "me") := by
  have hfs : fetchSectionsStage env workspace.gid project =
      (env.fetchSections taskListGid,
       [Event.remoteCall "fetchUserTaskListGid" workspace.gid,
        Event.remoteCall "fetchAsanaSections" taskListGid]) := by
    simp [fetchSectionsStage, h7, h8]
  have h4x : env.pickWorkspace ws = some workspace := by simpa using h4
  cases hsec : env.fetchSections taskListGid with
  | error e =>
    refine ⟨?_, ?_, ?_⟩
    · simp [promptForTaskDetails, h1, h2, h3, h4x, h5, h6, hfs, hsec]
    · simp [promptForTaskDetails, h1, h2, h3, h4x, h5, h6, hfs, hsec]
    · intro td htd
      exfalso
      simp [promptForTaskDetails, h1, h2, h3, h4x, h5, h6, hfs, hsec] at htd
  | ok sections =>
    rcases hrs : resolveSectionStage env.pickSection sections with ⟨r, evr⟩
    cases r with
    | none =>
      refine ⟨?_, ?_, ?_⟩
      · simp [promptForTaskDetails, h1, h2, h3, h4x, h5, h6, hfs, hsec, hrs]
      · simp [promptForTaskDetails, h1, h2, h3, h4x, h5, h6, hfs, hsec, hrs]
      · intro td htd
        exfalso
        simp [promptForTaskDetails, h1, h2, h3, h4x, h5, h6, hfs, hsec,
          hrs] at htd
    | some sel =>
      refine ⟨?_, ?_, ?_⟩
      · simp [promptForTaskDetails, h1, h2, h3, h4x, h5, h6, hfs, hsec, hrs]
      · simp [promptForTaskDetails, h1, h2, h3, h4x, h5, h6, hfs, hsec, hrs]
      · intro td htd
        simp [promptForTaskDetails, h1, h2, h3, h4x, h5, h6, hfs, hsec,
          hrs] at htd
        have hpg : td.projectGid = "" := by
          rw [← htd]
          simp [mkTaskDetails, h7]
        refine ⟨hpg, ?_⟩
        intro taskName wsGid
        rw [hpg]
        simp [createTaskRequestData, createTaskObjectLiteral,
          serializeFields, lookupField, List.find?]

/-- A concrete environment whose project picker selects the virtual
My Tasks option. -/
def envMyTasks : Env :=
  ⟨Except.ok [⟨"W", "1"⟩], Except.ok "u1",
   fun _ => Except.ok [⟨"P", "2"⟩],
   fun _ => Except.ok "tl1",
   fun _ => Except.ok [⟨"S", "3"⟩],
   fun _ => some ⟨"W", "1"⟩,
   fun opts => opts.find? (fun o => o.isMyTasks),
   fun _ => some ⟨"S", "3"⟩,
   fun _ _ _ _ => Except.error "never"⟩

/-- Witness for C3: a concrete run that selects My Tasks; the task-list
gid is fetched, sections are fetched against it, and the resulting
projectGid is empty, which omits the project from the creation body and
assigns to the current user. -/
theorem myTasks_selection_witness :
    Event.remoteCall "fetchUserTaskListGid" "1" ∈
      (promptForTaskDetails ⟨"tok", false, [], true, false, true⟩
        envMyTasks).2 ∧
    Event.remoteCall "fetchAsanaSections" "tl1" ∈
      (promptForTaskDetails ⟨"tok", false, [], true, false, true⟩
        envMyTasks).2 ∧
    TaskDetails.projectGid ⟨"1", "", "3", "My Tasks", "S"⟩ = "" ∧
    lookupField (createTaskRequestData "buy milk" "9"
      (TaskDetails.projectGid ⟨"1", "", "3", "My Tasks", "S"⟩))
      "projects" = none ∧
    lookupField (createTaskRequestData "buy milk" "9"
      (TaskDetails.projectGid ⟨"1", "", "3", "My Tasks", "S"⟩))
      "assignee" = some (Json.str "me") := by
  have h := myTasks_selection_uses_taskList_and_empty_project
    ⟨"tok", false, [], true, false, true⟩ envMyTasks
    [⟨"W", "1"⟩] "u1" ⟨"W", "1"⟩ [⟨"P", "2"⟩]
    ⟨"My Tasks", "u1", true, true⟩ "tl1"
    (by decide) rfl rfl rfl rfl (by decide) rfl rfl
  have h2 := h.2.2 ⟨"1", "", "3", "My Tasks", "S"⟩ (by decide)
  exact ⟨h.1, h.2.1, h2.1, (h2.2 "buy milk" "9").1, (h2.2 "buy milk" "9").2⟩

/-- The outcome of one `requestUrl` call: a response with its HTTP status,
parsed body and raw text, or a thrown network failure. -/
inductive HttpResult (α : Type) where
  | ok (status : Nat) (json : α) (text : String)
  | netError (msg : String)

/-- The try-block body of `fetchAsanaWorkspaces` (asanaApi.ts lines
15-28): a 2xx response returns the parsed data, a non-2xx response throws
`Asana API Error: <text>`, and a network failure propagates its own
error. -/
def fetchAsanaWorkspacesTry (r : HttpResult (List NamedGid)) :
    Except String (List NamedGid) :=
  match r with
  | HttpResult.ok status data text =>
    if 200 ≤ status ∧ status < 300 then Except.ok data
    else Except.error ("Asana API Error: " ++ text)
  | HttpResult.netError msg => Except.error msg

/-- Function `fetchAsanaWorkspaces` with its catch block (lines 29-32): any error
thrown inside the try block — remote rejection or network failure alike —
is logged and replaced by the fixed message
`Failed to retrieve workspaces from Asana`. -/
def fetchAsanaWorkspaces (r : HttpResult (List NamedGid)) :
    Except String (List NamedGid) :=
  match fetchAsanaWorkspacesTry r with
  | Except.ok data => Except.ok data
  | Except.error _ =>
    Except.error "Failed to retrieve workspaces from Asana"

/-- Whether a `requestUrl` outcome is a failure in the sense of the source
(a network failure or a non-2xx status). -/
def httpFailed {α : Type} : HttpResult α → Bool
  | HttpResult.ok status _ _ =>
    if 200 ≤ status ∧ status < 300 then false else true
  | HttpResult.netError _ => true

/-- C7 counterexample: a remote rejection with body text `quota exceeded`
surfaces the fixed message `Failed to retrieve workspaces from Asana`
instead of the remote message, and a network failure surfaces the
identical error — the two kinds are indistinguishable to the caller,
refuting the claim that the remote message is surfaced verbatim and that
the failure kind is preserved. -/
theorem remote_error_surfaced_generic_counterexample :
    fetchAsanaWorkspaces (HttpResult.ok 500 [] "quota exceeded") =
      Except.error "Failed to retrieve workspaces from Asana" ∧
    fetchAsanaWorkspaces (HttpResult.netError "network down") =
      Except.error "Failed to retrieve workspaces from Asana" ∧
    ("Failed to retrieve workspaces from Asana" : String) ≠
      "quota exceeded" :=
  ⟨rfl, rfl, by decide⟩

/-- C7 amended: a non-2xx response or network failure raises an error, but
the surfaced message is the fixed per-operation generic string rather than
the remote message, network failures are not distinguishable from remote
rejections in the surfaced error, and a single failure aborts the whole
flow — the orchestrator issues no further remote call and no retry. -/
theorem remote_failure_generic_message_no_retry
    (r : HttpResult (List NamedGid)) :
    (httpFailed r = true →
      fetchAsanaWorkspaces r =
        Except.error "Failed to retrieve workspaces from Asana") ∧
    (∀ status data text, r = HttpResult.ok status data text →
      200 ≤ status → status < 300 → fetchAsanaWorkspaces r =
        Except.ok data) ∧
    (∀ (s : Settings) (env : Env) (e : String), s.asanaToken ≠ "" →
      env.fetchWorkspaces = Except.error e →
      promptForTaskDetails s env =
        (none, [Event.remoteCall "fetchAsanaWorkspaces" "",
          Event.remoteCall "fetchAsanaUser" "",
          Event.notice ("Error fetching Asana data: " ++ e)])) := by
  refine ⟨?_, ?_, ?_⟩
  · intro h
    cases r with
    | ok status data text =>
      simp only [httpFailed] at h
      rw [Bool.ite_eq_true_distrib] at h
      simp at h
      have hn : ¬(200 ≤ status ∧ status < 300) := by omega
      simp [fetchAsanaWorkspaces, fetchAsanaWorkspacesTry, hn]
    | netError msg => rfl
  · intro status data text hr h1 h2
    subst hr
    simp [fetchAsanaWorkspaces, fetchAsanaWorkspacesTry, h1, h2]
  · intro s env e h1 h2
    simp [promptForTaskDetails, h1, h2]

/-- A concrete environment whose workspace fetch fails. -/
def envWorkspacesFail : Env :=
  ⟨Except.error "down", Except.ok "u1",
   fun _ => Except.ok [],
   fun _ => Except.ok "tl1",
   fun _ => Except.ok [],
   fun _ => none, fun _ => none, fun _ => none,
   fun _ _ _ _ => Except.error "never"⟩

/-- Witness for C7 amended at concrete inputs: a concrete network failure,
a concrete 2xx success, and a concrete flow abort after a failed
workspace fetch. -/
theorem remote_failure_generic_message_no_retry_witness :
    fetchAsanaWorkspaces (HttpResult.netError "refused") =
      Except.error "Failed to retrieve workspaces from Asana" ∧
    fetchAsanaWorkspaces (HttpResult.ok 200 [⟨"W", "1"⟩] "") =
      Except.ok [⟨"W", "1"⟩] ∧
    promptForTaskDetails ⟨"tok", false, [], true, false, true⟩
      envWorkspacesFail =
      (none, [Event.remoteCall "fetchAsanaWorkspaces" "",
        Event.remoteCall "fetchAsanaUser" "",
        Event.notice ("Error fetching Asana data: " ++ "down")]) :=
  ⟨(remote_failure_generic_message_no_retry (HttpResult.netError
      "refused")).1 rfl,
   (remote_failure_generic_message_no_retry (HttpResult.ok 200
      [⟨"W", "1"⟩] "")).2.1 200 [⟨"W", "1"⟩] "" rfl (by decide) (by decide),
   (remote_failure_generic_message_no_retry (HttpResult.netError
      "refused")).2.2 ⟨"tok", false, [], true, false, true⟩
     envWorkspacesFail "down" (by decide) rfl⟩

/-- The outcomes of the up-to-three `requestUrl` calls inside
`createTaskInAsana`: the task-creation POST, the section-attachment POST
and the final task re-fetch GET. -/
structure CreateTaskResponses where
  createResp : HttpResult String
  addTaskResp : HttpResult Unit
  taskResp : HttpResult TaskData

/-- The trailing re-fetch of `createTaskInAsana` (asanaApi.ts lines
156-165): the permalink fetch, whose own status is never inspected
either — any response that returns yields its parsed data. -/
def fetchTaskFinish (taskGid : String) (taskResp : HttpResult TaskData)
    (t : List Event) : Except String TaskData × List Event :=
  match taskResp with
  | HttpResult.netError msg =>
    (Except.error msg, t ++ [Event.remoteCall "GET task" taskGid])
  | HttpResult.ok _ data _ =>
    (Except.ok data, t ++ [Event.remoteCall "GET task" taskGid])

/-- The try-block body of `createTaskInAsana` (asanaApi.ts lines 117-167):
the creation POST is status-checked (non-2xx throws
`Asana API Error: <text>`); when `sectionGid` is non-empty the addTask
POST is awaited but its response status is never inspected — only a
thrown network failure stops the flow; then the task is re-fetched. The
serialized body of the creation POST is `createTaskRequestData`. -/
def createTaskTryBody (workspaceGid sectionGid : String)
    (r : CreateTaskResponses) : Except String TaskData × List Event :=
  match r.createResp with
  | HttpResult.netError msg =>
    (Except.error msg, [Event.remoteCall "POST tasks" workspaceGid])
  | HttpResult.ok status taskGid text =>
    if 200 ≤ status ∧ status < 300 then
      if sectionGid = "" then
        fetchTaskFinish taskGid r.taskResp
          [Event.remoteCall "POST tasks" workspaceGid]
      else
        match r.addTaskResp with
        | HttpResult.netError msg =>
          (Except.error msg,
           [Event.remoteCall "POST tasks" workspaceGid,
            Event.remoteCall "POST addTask" sectionGid])
        | HttpResult.ok _ _ _ =>
          fetchTaskFinish taskGid r.taskResp
            [Event.remoteCall "POST tasks" workspaceGid,
             Event.remoteCall "POST addTask" sectionGid]
    else
      (Except.error ("Asana API Error: " ++ text),
       [Event.remoteCall "POST tasks" workspaceGid])

/-- Function `createTaskInAsana` with its catch block (lines 169-172): any thrown
error is replaced by the fixed message `Failed to create task in Asana`. -/
def createTaskInAsana (taskName workspaceGid projectGid sectionGid : String)
    (r : CreateTaskResponses) : Except String TaskData × List Event :=
  let b := createTaskTryBody workspaceGid sectionGid r
  (match b.1 with
   | Except.ok data => Except.ok data
   | Except.error _ => Except.error "Failed to create task in Asana",
   b.2)

/-- C10: In createTaskInAsana the status of the section-attachment
(addTask) response is never inspected: for every addTask response that
returns without throwing — the status `astatus` below is arbitrary, with
no 2xx constraint — the function proceeds to re-fetch the task and
returns success. -/
theorem addTask_status_never_inspected
    (taskName workspaceGid projectGid sectionGid taskGid ctext atext
      ttext : String) (cstatus astatus tstatus : Nat) (td : TaskData)
    (hc : 200 ≤ cstatus ∧ cstatus < 300)
    (hs : sectionGid ≠ "") :
    (createTaskInAsana taskName workspaceGid projectGid sectionGid
      ⟨HttpResult.ok cstatus taskGid ctext,
       HttpResult.ok astatus () atext,
       HttpResult.ok tstatus td ttext⟩).1 = Except.ok td ∧
    Event.remoteCall "GET task" taskGid ∈
      (createTaskInAsana taskName workspaceGid projectGid sectionGid
        ⟨HttpResult.ok cstatus taskGid ctext,
         HttpResult.ok astatus () atext,
         HttpResult.ok tstatus td ttext⟩).2 := by
  simp [createTaskInAsana, createTaskTryBody, fetchTaskFinish, hc.1, hc.2,
    hs]

/-- Witness for C10: a concrete run whose addTask response has status 400;
the creation still reports success with the re-fetched task data. -/
theorem addTask_status_never_inspected_witness :
    (createTaskInAsana "buy milk" "1" "2" "3"
      ⟨HttpResult.ok 201 "t1" "",
       HttpResult.ok 400 () "section rejected",
       HttpResult.ok 200 ⟨"t1", "https://example.test/t1"⟩ ""⟩).1 =
      Except.ok ⟨"t1", "https://example.test/t1"⟩ ∧
    Event.remoteCall "GET task" "t1" ∈
      (createTaskInAsana "buy milk" "1" "2" "3"
        ⟨HttpResult.ok 201 "t1" "",
         HttpResult.ok 400 () "section rejected",
         HttpResult.ok 200 ⟨"t1", "https://example.test/t1"⟩ ""⟩).2 :=
  addTask_status_never_inspected "buy milk" "1" "2" "3" "t1" "" ""
    "" 201 400 200 ⟨"t1", "https://example.test/t1"⟩ (by decide) (by decide)

/-- Pinned-set membership of a picker option (`pinned.indexOf(option.gid)
!== -1 || pinned.indexOf(option.name) !== -1` in
`SelectionModal.renderOptions`). -/
def inPinnedList (pinned : List String) (o : NamedGid) : Bool :=
  inPinnedSet pinned o.gid o.name

/-- JavaScript `toLowerCase` on the strings at hand: per-character
lowering. -/
def strToLower (s : String) : String := String.mk (s.data.map Char.toLower)

/-- The rendering order of `SelectionModal.renderOptions` (main.ts): the
options whose lowercased name contains the lowercased query, the pinned
ones first and the others after, each group in input order. -/
def renderOptionsOrder (options : List NamedGid) (pinned : List String)
    (query : String) : List NamedGid :=
  let filteredOptions := options.filter
    (fun o => strIncludes (strToLower o.name) (strToLower query))
  let pinnedOptions := filteredOptions.filter
    (fun o => inPinnedList pinned o)
  let otherOptions := filteredOptions.filter
    (fun o => !inPinnedList pinned o)
  pinnedOptions ++ otherOptions

/-- The options of the project picker that come from the fetched project
list (every option except the synthetic My Tasks entry). -/
def nonMyTasksOptions (s : Settings) (userGid : String)
    (projects : List NamedGid) : List ProjectOption :=
  (buildProjectOptions s userGid projects).filter (fun o => !o.isMyTasks)

/-- In a concatenation whose first part satisfies a predicate everywhere
and whose second part satisfies it nowhere, any position holding a
satisfying element forces every earlier position to hold one too. -/
theorem append_pinned_first {α : Type} (p : α → Bool) (xs ys : List α)
    (hx : ∀ a ∈ xs, p a = true) (hy : ∀ a ∈ ys, p a = false)
    (i j : Nat) (hij : i < j) (a b : α)
    (ha : (xs ++ ys)[i]? = some a) (hb : (xs ++ ys)[j]? = some b)
    (hpb : p b = true) : p a = true := by
  have hjx : j < xs.length := by
    by_contra hcon
    push_neg at hcon
    rw [List.getElem?_append_right hcon] at hb
    have hmem : b ∈ ys := List.getElem?_mem hb
    rw [hy _ hmem] at hpb
    exact Bool.false_ne_true hpb
  have hix : i < xs.length := Nat.lt_trans hij hjx
  rw [List.getElem?_append_left hix] at ha
  exact hx _ (List.getElem?_mem ha)

/-- C6 counterexample: with `pinMyTasks` enabled (the default) and a
pinned-set containing the fetched project, the offered project-picker list
places the synthetic My Tasks option — whose gid and name are not in the
pinned-set — at position 0, ahead of the pinned-set member at position 1,
refuting the claim that every pinned-set option precedes every
non-pinned-set option in the offered order. -/
theorem pinned_precede_nonpinned_counterexample :
    buildProjectOptions ⟨"t", false, ["P1"], true, false, true⟩ "u1"
      [⟨"P1", "g1"⟩] =
      [⟨"My Tasks", "u1", true, true⟩, ⟨"P1", "g1", true, false⟩] ∧
    inPinnedSet ["P1"] "u1" "My Tasks" = false ∧
    inPinnedSet ["P1"] "g1" "P1" = true := by
  decide

/-- The project-picker options drawn from the fetched project list are the
pinned-set members (in input order) followed by the rest (in input
order), for either value of `pinMyTasks`. -/
theorem nonMyTasksOptions_eq (s : Settings) (userGid : String)
    (projects : List NamedGid) :
    nonMyTasksOptions s userGid projects =
      (projects.filter
        (fun p => inPinnedSet s.pinnedProjects p.gid p.name)).map
        (fun p => (⟨p.name, p.gid, true, false⟩ : ProjectOption)) ++
      (projects.filter
        (fun p => !inPinnedSet s.pinnedProjects p.gid p.name)).map
        (fun p => (⟨p.name, p.gid, false, false⟩ : ProjectOption)) := by
  unfold nonMyTasksOptions buildProjectOptions
  cases hpm : s.pinMyTasks <;>
    simp [List.filter_append, List.filter_map, Function.comp]

/-- C6 amended: in `SelectionModal.renderOptions` (for every option list,
pinned-set and query) every offered option in the pinned-set precedes
every offered option not in it, and each of the two groups preserves the
input order; in the project-picker list built by `promptForTaskDetails`
the same holds among the options drawn from the fetched project list,
while the synthetic My Tasks option is additionally injected (at the very
front when `pinMyTasks` is set, between the two groups otherwise)
regardless of its own pinned-set membership. -/
theorem pinned_precede_nonpinned_amended :
    (∀ (options : List NamedGid) (pinned : List String) (query : String)
       (i j : Nat) (a b : NamedGid), i < j →
       (renderOptionsOrder options pinned query)[i]? = some a →
       (renderOptionsOrder options pinned query)[j]? = some b →
       inPinnedList pinned b = true → inPinnedList pinned a = true) ∧
    (∀ (options : List NamedGid) (pinned : List String) (query : String),
       ((renderOptionsOrder options pinned query).filter
         (fun o => inPinnedList pinned o)).Sublist options ∧
       ((renderOptionsOrder options pinned query).filter
         (fun o => !inPinnedList pinned o)).Sublist options) ∧
    (∀ (s : Settings) (userGid : String) (projects : List NamedGid)
       (i j : Nat) (a b : ProjectOption), i < j →
       (nonMyTasksOptions s userGid projects)[i]? = some a →
       (nonMyTasksOptions s userGid projects)[j]? = some b →
       inPinnedSet s.pinnedProjects b.gid b.name = true →
       inPinnedSet s.pinnedProjects a.gid a.name = true) ∧
    (∀ (s : Settings) (userGid : String) (projects : List NamedGid),
       (((nonMyTasksOptions s userGid projects).filter
          (fun o => inPinnedSet s.pinnedProjects o.gid o.name)).map
         (fun o => (⟨o.name, o.gid⟩ : NamedGid))).Sublist projects ∧
       (((nonMyTasksOptions s userGid projects).filter
          (fun o => !inPinnedSet s.pinnedProjects o.gid o.name)).map
         (fun o => (⟨o.name, o.gid⟩ : NamedGid))).Sublist projects) := by
  refine ⟨?_, ?_, ?_, ?_⟩
  · intro options pinned query i j a b hij ha hb hpb
    have e : renderOptionsOrder options pinned query =
        (options.filter
          (fun o => strIncludes (strToLower o.name) (strToLower query))).filter
          (fun o => inPinnedList pinned o) ++
        (options.filter
          (fun o => strIncludes (strToLower o.name) (strToLower query))).filter
          (fun o => !inPinnedList pinned o) := rfl
    rw [e] at ha hb
    exact append_pinned_first (fun o => inPinnedList pinned o) _ _
      (fun x hx => (List.mem_filter.1 hx).2)
      (fun x hx => by simpa using (List.mem_filter.1 hx).2)
      i j hij a b ha hb hpb
  · intro options pinned query
    have hA : ((options.filter
        (fun o => strIncludes (strToLower o.name) (strToLower query))).filter
        (fun o => inPinnedList pinned o)).filter
        (fun o => inPinnedList pinned o) =
        (options.filter
          (fun o => strIncludes (strToLower o.name) (strToLower query))).filter
          (fun o => inPinnedList pinned o) :=
      List.filter_eq_self.2 (fun x hx => by
        simpa using (List.mem_filter.1 hx).2)
    have hB : ((options.filter
        (fun o => strIncludes (strToLower o.name) (strToLower query))).filter
        (fun o => !inPinnedList pinned o)).filter
        (fun o => inPinnedList pinned o) = [] :=
      List.filter_eq_nil_iff.2 (fun x hx => by
        simpa using (List.mem_filter.1 hx).2)
    have hA2 : ((options.filter
        (fun o => strIncludes (strToLower o.name) (strToLower query))).filter
        (fun o => inPinnedList pinned o)).filter
        (fun o => !inPinnedList pinned o) = [] :=
      List.filter_eq_nil_iff.2 (fun x hx => by
        simpa using (List.mem_filter.1 hx).2)
    have hB2 : ((options.filter
        (fun o => strIncludes (strToLower o.name) (strToLower query))).filter
        (fun o => !inPinnedList pinned o)).filter
        (fun o => !inPinnedList pinned o) =
        (options.filter
          (fun o => strIncludes (strToLower o.name) (strToLower query))).filter
          (fun o => !inPinnedList pinned o) :=
      List.filter_eq_self.2 (fun x hx => by
        simpa using (List.mem_filter.1 hx).2)
    constructor
    · show (((options.filter
        (fun o => strIncludes (strToLower o.name) (strToLower query))).filter
        (fun o => inPinnedList pinned o) ++
        (options.filter
          (fun o => strIncludes (strToLower o.name) (strToLower query))).filter
          (fun o => !inPinnedList pinned o)).filter
          (fun o => inPinnedList pinned o)).Sublist options
      rw [List.filter_append, hA, hB, List.append_nil]
      exact (List.filter_sublist _).trans (List.filter_sublist _)
    · show (((options.filter
        (fun o => strIncludes (strToLower o.name) (strToLower query))).filter
        (fun o => inPinnedList pinned o) ++
        (options.filter
          (fun o => strIncludes (strToLower o.name) (strToLower query))).filter
          (fun o => !inPinnedList pinned o)).filter
          (fun o => !inPinnedList pinned o)).Sublist options
      rw [List.filter_append, hA2, hB2, List.nil_append]
      exact (List.filter_sublist _).trans (List.filter_sublist _)
  · intro s userGid projects i j a b hij ha hb hpb
    rw [nonMyTasksOptions_eq] at ha hb
    refine append_pinned_first
      (fun o => inPinnedSet s.pinnedProjects o.gid o.name) _ _
      ?_ ?_ i j hij a b ha hb hpb
    · intro x hx
      obtain ⟨q, hq, rfl⟩ := List.mem_map.1 hx
      exact (List.mem_filter.1 hq).2
    · intro x hx
      obtain ⟨q, hq, rfl⟩ := List.mem_map.1 hx
      have := (List.mem_filter.1 hq).2
      simpa using this
  · intro s userGid projects
    rw [nonMyTasksOptions_eq]
    constructor
    · rw [List.filter_append]
      have hA : ((projects.filter
          (fun p => inPinnedSet s.pinnedProjects p.gid p.name)).map
          (fun p => (⟨p.name, p.gid, true, false⟩ : ProjectOption))).filter
          (fun o => inPinnedSet s.pinnedProjects o.gid o.name) =
          (projects.filter
            (fun p => inPinnedSet s.pinnedProjects p.gid p.name)).map
            (fun p => (⟨p.name, p.gid, true, false⟩ : ProjectOption)) :=
        List.filter_eq_self.2 (fun x hx => by
          obtain ⟨q, hq, rfl⟩ := List.mem_map.1 hx
          simpa using (List.mem_filter.1 hq).2)
      have hB : ((projects.filter
          (fun p => !inPinnedSet s.pinnedProjects p.gid p.name)).map
          (fun p => (⟨p.name, p.gid, false, false⟩ : ProjectOption))).filter
          (fun o => inPinnedSet s.pinnedProjects o.gid o.name) = [] :=
        List.filter_eq_nil_iff.2 (fun x hx => by
          obtain ⟨q, hq, rfl⟩ := List.mem_map.1 hx
          simpa using (List.mem_filter.1 hq).2)
      rw [hA, hB, List.append_nil, List.map_map]
      have hid : ((fun o => (⟨o.name, o.gid⟩ : NamedGid)) ∘
          (fun p => (⟨p.name, p.gid, true, false⟩ : ProjectOption))) =
          id := funext (fun q => rfl)
      rw [hid, List.map_id]
      exact List.filter_sublist _
    · rw [List.filter_append]
      have hA : ((projects.filter
          (fun p => inPinnedSet s.pinnedProjects p.gid p.name)).map
          (fun p => (⟨p.name, p.gid, true, false⟩ : ProjectOption))).filter
          (fun o => !inPinnedSet s.pinnedProjects o.gid o.name) = [] :=
        List.filter_eq_nil_iff.2 (fun x hx => by
          obtain ⟨q, hq, rfl⟩ := List.mem_map.1 hx
          simpa using (List.mem_filter.1 hq).2)
      have hB : ((projects.filter
          (fun p => !inPinnedSet s.pinnedProjects p.gid p.name)).map
          (fun p => (⟨p.name, p.gid, false, false⟩ : ProjectOption))).filter
          (fun o => !inPinnedSet s.pinnedProjects o.gid o.name) =
          (projects.filter
            (fun p => !inPinnedSet s.pinnedProjects p.gid p.name)).map
            (fun p => (⟨p.name, p.gid, false, false⟩ : ProjectOption)) :=
        List.filter_eq_self.2 (fun x hx => by
          obtain ⟨q, hq, rfl⟩ := List.mem_map.1 hx
          simpa using (List.mem_filter.1 hq).2)
      rw [hA, hB, List.nil_append, List.map_map]
      have hid : ((fun o => (⟨o.name, o.gid⟩ : NamedGid)) ∘
          (fun p => (⟨p.name, p.gid, false, false⟩ : ProjectOption))) =
          id := funext (fun q => rfl)
      rw [hid, List.map_id]
      exact List.filter_sublist _

/-- Witness for C6 amended at concrete inputs: a concrete rendered list
with two pinned options, and a concrete project-picker list with two
pinned-set projects. -/
theorem pinned_precede_nonpinned_amended_witness :
    inPinnedList ["a", "b"] ⟨"A", "a"⟩ = true ∧
    ((renderOptionsOrder [⟨"A", "a"⟩, ⟨"B", "b"⟩] ["a", "b"] "").filter
      (fun o => inPinnedList ["a", "b"] o)).Sublist
      [⟨"A", "a"⟩, ⟨"B", "b"⟩] ∧
    inPinnedSet ["g1", "g2"] "g1" "P1" = true ∧
    (((nonMyTasksOptions ⟨"t", false, ["g1", "g2"], true, false, true⟩ "u"
        [⟨"P1", "g1"⟩, ⟨"P2", "g2"⟩]).filter
       (fun o => inPinnedSet ["g1", "g2"] o.gid o.name)).map
      (fun o => (⟨o.name, o.gid⟩ : NamedGid))).Sublist
      [⟨"P1", "g1"⟩, ⟨"P2", "g2"⟩] :=
  ⟨pinned_precede_nonpinned_amended.1 [⟨"A", "a"⟩, ⟨"B", "b"⟩] ["a", "b"]
     "" 0 1 ⟨"A", "a"⟩ ⟨"B", "b"⟩ (by decide) (by decide) (by decide)
     (by decide),
   (pinned_precede_nonpinned_amended.2.1 [⟨"A", "a"⟩, ⟨"B", "b"⟩]
     ["a", "b"] "").1,
   pinned_precede_nonpinned_amended.2.2.1
     ⟨"t", false, ["g1", "g2"], true, false, true⟩ "u"
     [⟨"P1", "g1"⟩, ⟨"P2", "g2"⟩] 0 1 ⟨"P1", "g1", true, false⟩
     ⟨"P2", "g2", true, false⟩ (by decide) (by decide) (by decide)
     (by decide),
   (pinned_precede_nonpinned_amended.2.2.2
     ⟨"t", false, ["g1", "g2"], true, false, true⟩ "u"
     [⟨"P1", "g1"⟩, ⟨"P2", "g2"⟩]).1⟩
